import Mathlib

/-!
Shallow embedding of `src/libstd/sys/windows/tcp.rs`: the Windows TCP
acceptor (`TcpListener::listen`, `TcpAcceptor::accept`, `close_accept`,
`set_timeout`, `Clone for TcpAcceptor`).

The `accept()` wait/retry loop interacts with the operating system at
several points (the two-event wait, the network-event enumeration, the
non-blocking `accept` syscall, the event deregistration and the
blocking-mode switch).  Each loop iteration's OS responses are collected
in an `OsIter` record, and a whole `accept()` call is a recursion over a
list of such records (`acceptLoop`): one record per entry of the `while`
loop.  An exhausted list means the call is still looping/blocked, which
the model renders as `none`.  The loop also records, for each wait
actually performed, the millisecond duration computed at lines 143-148
of the source, so that theorems can speak about every wait of a call.

Machine integers: `deadline` and `timer::now()` are `u64` and are
modelled as `Nat` (the subtraction at line 147 is guarded by
`self.deadline < now`, so no wrap occurs there); C return codes are
modelled as `Int` with the literal `-1` sentinel used by the source;
`lNetworkEvents` is a flag bitmask, modelled as `Nat`.  The `ms as
libc::DWORD` cast at line 151 truncates the computed `u64` duration to
32 bits when it is passed to the OS; `msFor` below is the computed `ms`
value of lines 143-148 (before that cast), which is what the loop
records.
-/

/-- Modelled from the spec: platform constant from the `c` module, which is
not under `src/` (only `tcp.rs` is).  Index of the first signaled event in a
`WSAWaitForMultipleEvents` call; the abort event is at index 0. -/
def WSA_WAIT_EVENT_0 : Nat := 0

/-- Modelled from the spec: platform constant from the `c` module (not under
`src/`): the wait expired with no event signaled. -/
def WSA_WAIT_TIMEOUT : Nat := 258

/-- Modelled from the spec: platform constant from the `c` module (not under
`src/`): the wait itself failed for an OS-level reason. -/
def WSA_WAIT_FAILED : Nat := 4294967295

/-- Modelled from the spec: platform constant from the `c` module (not under
`src/`): the sentinel duration meaning wait indefinitely (as a `u64`, after
the `as u64` cast at line 144). -/
def WSA_INFINITE : Nat := 4294967295

/-- Modelled from the spec: platform constant from the `c` module (not under
`src/`): the network-event bit for the incoming-connection condition. -/
def FD_ACCEPT : Nat := 8

/-- Error taxonomy of the surrounding `IoResult`, restricted to the kinds
this file produces: `timeout("accept timed out")`, `last_net_error()` /
`last_error()` (any OS failure), and `eof()`. -/
inductive IoErrorKind where
  | timeout
  | osError
  | eof
deriving DecidableEq

/-- `Event` (lines 26-45): a manual-reset OS event object.  The opaque
`WSAEVENT` handle is modelled by the one piece of its OS-side state the
acceptor logic depends on: whether the event is currently signaled.
`WSACreateEvent` produces a non-signaled event; `WSASetEvent` signals it. -/
structure Event where
  signaled : Bool
deriving DecidableEq

/-- `TcpListener` (lines 51-53): owns the bound socket, modelled by its
descriptor value. -/
structure TcpListener where
  fd : Int
deriving DecidableEq

/-- `AcceptorInner` (lines 109-114): the shared state behind the `Arc` -
the listener, the abort and accept events, and the atomic `closed` flag. -/
structure AcceptorInner where
  listener : TcpListener
  abort : Event
  accept : Event
  closed : Bool
deriving DecidableEq

/-- `TcpAcceptor` (lines 104-107): a shared reference to `AcceptorInner`
plus the private `deadline: u64` (0 is the no-timeout sentinel). -/
structure TcpAcceptor where
  inner : AcceptorInner
  deadline : Nat
deriving DecidableEq

/-- OS responses consumed by `TcpListener::listen` (lines 74-97): the
`libc::listen` return, whether each `Event::new()` succeeds, and the
`WSAEventSelect` registration return. -/
structure ListenEnv where
  listenRet : Int
  acceptEventOk : Bool
  eventSelectRet : Int
  abortEventOk : Bool
deriving DecidableEq

/-- `TcpListener::listen` (lines 74-97).  The fallible steps occur in
source order: `libc::listen`, `Event::new()` for the accept event,
`WSAEventSelect(fd, accept, FD_ACCEPT)`, and `Event::new()` for the abort
event (the `try!` inside the `AcceptorInner` literal runs before
`Arc::new`).  Any failure returns the error and no `AcceptorInner` value
is constructed; success yields the acceptor with `closed` false and
`deadline` 0. -/
def TcpListener.listen (self : TcpListener) (_backlog : Int) (env : ListenEnv) :
    Except IoErrorKind TcpAcceptor :=
  if env.listenRet = -1 then .error .osError
  else if env.acceptEventOk = false then .error .osError
  else if env.eventSelectRet ≠ 0 then .error .osError
  else if env.abortEventOk = false then .error .osError
  else .ok { inner := { listener := self,
                        abort := { signaled := false },
                        accept := { signaled := false },
                        closed := false },
             deadline := 0 }

/-- `TcpAcceptor::set_timeout` (lines 197-199):
`self.deadline = timeout.map(|a| timer::now() + a).unwrap_or(0)`. -/
def TcpAcceptor.set_timeout (self : TcpAcceptor) (t : Option Nat) (now : Nat) :
    TcpAcceptor :=
  { self with deadline := match t with | some a => now + a | none => 0 }

/-- `Clone for TcpAcceptor` (lines 212-219): the `Arc` is cloned (the new
handle refers to the same `AcceptorInner`) and the new `deadline` is 0. -/
def TcpAcceptor.clone (self : TcpAcceptor) : TcpAcceptor :=
  { inner := self.inner, deadline := 0 }

/-- `TcpAcceptor::close_accept` (lines 201-209): store `true` into the
shared `closed` flag, then `WSASetEvent` on the abort event.  `setEventOk`
is the success of that OS call (`ret == libc::TRUE`); on failure the flag
is already stored but the event is untouched and `Err(last_net_error())`
is returned. -/
def close_accept (inner : AcceptorInner) (setEventOk : Bool) :
    AcceptorInner × Except IoErrorKind Unit :=
  let st := { inner with closed := true }
  if setEventOk then ({ st with abort := { signaled := true } }, .ok ())
  else (st, .error .osError)

/-- The OS responses consumed by one iteration of the `accept()` loop
(lines 142-188): the value the atomic `closed` load at loop entry
returns, `timer::now()`, the `WSAWaitForMultipleEvents` return, the
`WSAEnumNetworkEvents` return and the `lNetworkEvents` mask it fills in,
the `libc::accept` return (with `wouldblock()` for the `-1` case), and
the returns of the `WSAEventSelect` deregistration and
`set_nonblocking(fd, false)` on the accepted handle. -/
structure OsIter where
  closedAtEntry : Bool
  now : Nat
  waitRet : Nat
  enumRet : Int
  lNetworkEvents : Nat
  acceptRet : Int
  wouldBlock : Bool
  eventSelectRet : Int
  setNonblockingOk : Bool
deriving DecidableEq

/-- What one call of `accept()` can produce: a connection (the accepted
descriptor), an `IoResult` error, or a panic of the `assert_eq!` at line
159. -/
inductive AcceptOutcome where
  | conn (fd : Int)
  | err (e : IoErrorKind)
  | panicked
deriving DecidableEq

/-- Outcome of one loop iteration: return from `accept()` with a result,
or go round the loop again (`continue`, or falling off the match arms). -/
inductive StepResult where
  | ret (r : AcceptOutcome)
  | again
deriving DecidableEq

/-- Lines 162-187: the code run when the wait reported the accept event.
`WSAEnumNetworkEvents` failing returns `last_net_error()`; an
`lNetworkEvents` mask without the `FD_ACCEPT` bit is a spurious wakeup
(`continue`); then the non-blocking `libc::accept`: `-1` with
`wouldblock()` retries, `-1` otherwise returns `last_net_error()`; a
descriptor is wrapped, deregistered from the event (`WSAEventSelect(fd,
events[1], 0)`, failure returns `last_net_error()`), switched to blocking
(`set_nonblocking(fd, false)`, failure propagates via `try!`), and
returned. -/
def enumStep (it : OsIter) : StepResult :=
  if it.enumRet ≠ 0 then .ret (.err .osError)
  else if it.lNetworkEvents &&& FD_ACCEPT = 0 then .again
  else if it.acceptRet = -1 then
    (if it.wouldBlock then .again else .ret (.err .osError))
  else if it.eventSelectRet ≠ 0 then .ret (.err .osError)
  else if it.setNonblockingOk = false then .ret (.err .osError)
  else .ret (.conn it.acceptRet)

/-- Lines 149-187: the body of one loop iteration after the `closed`
check, beginning with the `match` on the `WSAWaitForMultipleEvents`
return (lines 153-160).  `WSA_WAIT_EVENT_0` (the abort event, index 0)
`break`s out of the loop, and the code after the loop returns
`Err(eof())`, rendered here as returning that error directly; any value
other than the four named ones trips `assert_eq!(n, WSA_WAIT_EVENT_0 +
1)`. -/
def waitStep (it : OsIter) : StepResult :=
  if it.waitRet = WSA_WAIT_TIMEOUT then .ret (.err .timeout)
  else if it.waitRet = WSA_WAIT_FAILED then .ret (.err .osError)
  else if it.waitRet = WSA_WAIT_EVENT_0 then .ret (.err .eof)
  else if it.waitRet ≠ WSA_WAIT_EVENT_0 + 1 then .ret .panicked
  else enumStep it

/-- Lines 143-148: the `ms` value computed before each wait - infinite
when `deadline` holds the sentinel 0, otherwise `0` if the deadline has
passed and `deadline - now` otherwise (equivalently `max(0, deadline -
now)` in exact arithmetic). -/
def msFor (deadline now : Nat) : Nat :=
  if deadline = 0 then WSA_INFINITE
  else if deadline < now then 0 else deadline - now

/-- Lines 142-191: the `while !self.inner.closed.load(SeqCst)` loop.
Each list element is one loop entry; `closedAtEntry = true` exits the
loop and the function returns `Err(eof())` without waiting.  The second
component collects the `ms` duration of every wait performed (in order).
`none` means the oracle ran out while the call was still looping. -/
def acceptLoop (deadline : Nat) : List OsIter → Option AcceptOutcome × List Nat
  | [] => (none, [])
  | it :: rest =>
    if it.closedAtEntry then (some (.err .eof), [])
    else
      match waitStep it with
      | .ret r => (some r, [msFor deadline it.now])
      | .again =>
        let p := acceptLoop deadline rest
        (p.1, msFor deadline it.now :: p.2)

/-- `TcpAcceptor::accept` (lines 119-191): the loop run with this
handle's private deadline.  `accept` takes `&mut self` but never assigns
any field of `self`; in particular the deadline is the same value on
every iteration. -/
def TcpAcceptor.accept (self : TcpAcceptor) (iters : List OsIter) :
    Option AcceptOutcome × List Nat :=
  acceptLoop self.deadline iters

/-! ## Claims -/

/-- Claim C6: `clone()` produces a new acceptor sharing the same
`AcceptorInner` (listener socket, both events, closed flag) and whose
private deadline is the no-timeout sentinel 0, regardless of the source
acceptor's deadline; cloning never copies the source's deadline. -/
theorem C6_clone_shares_state_resets_deadline (a : TcpAcceptor) :
    (TcpAcceptor.clone a).inner = a.inner ∧ (TcpAcceptor.clone a).deadline = 0 :=
  ⟨rfl, rfl⟩

/-- Claim C7: the shared `closed` flag is monotone - `close_accept` only
ever stores `true` into it, `set_timeout` and `clone` leave the shared
state untouched, the abort event once signaled stays signaled through
`close_accept`, and a second `close_accept` on an already-closed,
already-signaled state (with the OS set-event call succeeding, as it does
on an already-set manual-reset event) leaves the state unchanged and
returns `Ok(())`. -/
theorem C7_closed_monotone_close_idempotent (st : AcceptorInner) (ok : Bool) :
    ((close_accept st ok).1).closed = true ∧
    (st.abort.signaled = true → ((close_accept st ok).1).abort.signaled = true) ∧
    (∀ (a : TcpAcceptor) (t : Option Nat) (now : Nat),
       (TcpAcceptor.set_timeout a t now).inner = a.inner ∧
       (TcpAcceptor.clone a).inner = a.inner) ∧
    (st.closed = true → st.abort.signaled = true →
       close_accept st true = (st, Except.ok ())) := by
  refine ⟨?_, ?_, ?_, ?_⟩
  · unfold close_accept; cases ok <;> rfl
  · intro h; unfold close_accept; cases ok <;> simp [h]
  · intro a t now; exact ⟨rfl, rfl⟩
  · intro h1 h2
    cases st with
    | mk l ab ac cl =>
      cases ab with
      | mk s =>
        simp only at h1 h2
        subst h1; subst h2
        rfl

/-- Witness for C7 at a concrete already-closed state. -/
theorem C7_witness :
    close_accept ⟨⟨0⟩, ⟨true⟩, ⟨false⟩, true⟩ true =
      (⟨⟨0⟩, ⟨true⟩, ⟨false⟩, true⟩, Except.ok ()) :=
  (C7_closed_monotone_close_idempotent ⟨⟨0⟩, ⟨true⟩, ⟨false⟩, true⟩ true).2.2.2 rfl rfl

/-- Claim C8: `listen(backlog)` returns an OS error exactly when the
underlying `listen` call, the accept-event creation, the event
registration, or the abort-event creation fails; on success the acceptor
has `closed = false`, `deadline = 0`, and owns the listener.  (On failure
the `Except.error` result carries no `AcceptorInner`: the shared state is
only constructed on the all-success path.) -/
theorem C8_listen_error_iff (l : TcpListener) (backlog : Int) (env : ListenEnv) :
    (TcpListener.listen l backlog env = .error .osError ↔
       (env.listenRet = -1 ∨ env.acceptEventOk = false ∨
        env.eventSelectRet ≠ 0 ∨ env.abortEventOk = false)) ∧
    (∀ a, TcpListener.listen l backlog env = .ok a →
       a.inner.closed = false ∧ a.deadline = 0 ∧ a.inner.listener = l) := by
  constructor
  · constructor
    · intro h
      by_contra hc
      push_neg at hc
      obtain ⟨h1, h2, h3, h4⟩ := hc
      simp [TcpListener.listen, h1, h2, h3, h4] at h
    · intro h
      unfold TcpListener.listen
      split
      · rfl
      · split
        · rfl
        · split
          · rfl
          · split
            · rfl
            · rename_i hA hB hC hD
              rcases h with h | h | h | h
              · exact absurd h hA
              · exact absurd h hB
              · exact absurd h hC
              · exact absurd h hD
  · intro a h
    unfold TcpListener.listen at h
    repeat' split at h
    all_goals first
      | exact Except.noConfusion h
      | (injection h with h2; subst h2; exact ⟨rfl, rfl, rfl⟩)

/-- Witness for C8: a failing `listen` syscall yields the OS error. -/
theorem C8_witness :
    TcpListener.listen ⟨5⟩ 1 ⟨-1, true, 0, true⟩ = .error .osError :=
  (C8_listen_error_iff ⟨5⟩ 1 ⟨-1, true, 0, true⟩).1.mpr (Or.inl rfl)

/-- Claim C1: once `close_accept` has run (successfully or not), the
shared `closed` flag is `true`; any `accept()` call on any handle of the
family whose loop-entry load returns that flag's value returns
`Err(eof())` immediately, performing no wait at all (empty wait trace)
and accepting nothing, whatever the rest of the OS behaviour and whatever
the caller's deadline. -/
theorem C1_accept_after_close_returns_eof (st : AcceptorInner) (ok : Bool)
    (d : Nat) (it : OsIter) (rest : List OsIter)
    (h : it.closedAtEntry = ((close_accept st ok).1).closed) :
    acceptLoop d (it :: rest) = (some (.err .eof), []) := by
  have hc : ((close_accept st ok).1).closed = true := by
    unfold close_accept; cases ok <;> rfl
  rw [hc] at h
  simp [acceptLoop, h]

/-- Witness for C1: a closed flag observed at loop entry yields `eof`
with no wait performed. -/
theorem C1_witness :
    acceptLoop 7 [⟨true, 0, 0, 0, 0, 0, false, 0, true⟩] =
      (some (.err .eof), []) :=
  C1_accept_after_close_returns_eof
    ⟨⟨0⟩, ⟨false⟩, ⟨false⟩, false⟩ true 7
    ⟨true, 0, 0, 0, 0, 0, false, 0, true⟩ [] rfl

/-- Claim C2: the match on the two-event wait's return maps outcomes
exactly as: `WSA_WAIT_TIMEOUT` returns the `Timeout` error,
`WSA_WAIT_FAILED` returns an OS error, `WSA_WAIT_EVENT_0` (the abort
event) exits the loop and the call returns `Eof`, and only
`WSA_WAIT_EVENT_0 + 1` (the accept event) proceeds to the network-event
enumeration step. -/
theorem C2_wait_outcome_mapping (d : Nat) (it : OsIter) (rest : List OsIter) :
    (it.waitRet = WSA_WAIT_TIMEOUT → waitStep it = .ret (.err .timeout)) ∧
    (it.waitRet = WSA_WAIT_FAILED → waitStep it = .ret (.err .osError)) ∧
    (it.waitRet = WSA_WAIT_EVENT_0 →
       waitStep it = .ret (.err .eof) ∧
       (it.closedAtEntry = false →
          acceptLoop d (it :: rest) = (some (.err .eof), [msFor d it.now]))) ∧
    (it.waitRet = WSA_WAIT_EVENT_0 + 1 → waitStep it = enumStep it) := by
  refine ⟨?_, ?_, ?_, ?_⟩
  · intro h
    simp [waitStep, h, WSA_WAIT_TIMEOUT]
  · intro h
    simp [waitStep, h, WSA_WAIT_TIMEOUT, WSA_WAIT_FAILED]
  · intro h
    have hws : waitStep it = .ret (.err .eof) := by
      simp [waitStep, h, WSA_WAIT_TIMEOUT, WSA_WAIT_FAILED, WSA_WAIT_EVENT_0]
    refine ⟨hws, ?_⟩
    intro hcl
    simp [acceptLoop, hcl, hws]
  · intro h
    simp [waitStep, h, WSA_WAIT_TIMEOUT, WSA_WAIT_FAILED, WSA_WAIT_EVENT_0]

/-- Witness for C2 at a concrete wait expiry. -/
theorem C2_witness :
    waitStep ⟨false, 3, 258, 0, 0, 0, false, 0, true⟩ = .ret (.err .timeout) :=
  (C2_wait_outcome_mapping 0 ⟨false, 3, 258, 0, 0, 0, false, 0, true⟩ []).1 rfl

/-- Claim C5: when the non-blocking `accept` attempt returns `-1` on an
iteration that reached it, a would-block condition makes the iteration
fall through (`again`) so the same `accept()` call continues with the
next wait iteration - the call's result is whatever the remaining
iterations produce - while any other `-1` failure returns an OS error
immediately, with no retry. -/
theorem C5_wouldblock_internal_only (d : Nat) (it : OsIter) (rest : List OsIter)
    (hclosed : it.closedAtEntry = false)
    (hwait : it.waitRet = WSA_WAIT_EVENT_0 + 1)
    (henum : it.enumRet = 0)
    (hbit : it.lNetworkEvents &&& FD_ACCEPT ≠ 0)
    (hacc : it.acceptRet = -1) :
    (it.wouldBlock = true →
       waitStep it = .again ∧
       (acceptLoop d (it :: rest)).1 = (acceptLoop d rest).1) ∧
    (it.wouldBlock = false → waitStep it = .ret (.err .osError)) := by
  have hstep : waitStep it = enumStep it := by
    simp [waitStep, hwait, WSA_WAIT_TIMEOUT, WSA_WAIT_FAILED, WSA_WAIT_EVENT_0]
  constructor
  · intro hwb
    have hws : waitStep it = .again := by
      rw [hstep]
      simp [enumStep, henum, hbit, hacc, hwb]
    refine ⟨hws, ?_⟩
    simp [acceptLoop, hclosed, hws]
  · intro hwb
    rw [hstep]
    simp [enumStep, henum, hbit, hacc, hwb]

/-- Witness for C5: a would-block `-1` retries into the remaining trace. -/
theorem C5_witness :
    waitStep ⟨false, 3, 1, 0, 8, -1, true, 0, true⟩ = .again ∧
    (acceptLoop 0 [⟨false, 3, 1, 0, 8, -1, true, 0, true⟩]).1 =
      (acceptLoop 0 []).1 :=
  (C5_wouldblock_internal_only 0 ⟨false, 3, 1, 0, 8, -1, true, 0, true⟩ []
    rfl rfl rfl (by decide) rfl).1 rfl

/-- Claim C9: when the non-blocking `accept` has already produced a new
descriptor but deregistering event notification on it fails, or switching
it to blocking mode fails, `accept()` returns an OS error and the
connection is not handed to the caller (the call's outcome is the error,
not the descriptor; the dropped `TcpStream` closes the handle). -/
theorem C9_normalization_failure_drops_connection (it : OsIter)
    (hwait : it.waitRet = WSA_WAIT_EVENT_0 + 1)
    (henum : it.enumRet = 0)
    (hbit : it.lNetworkEvents &&& FD_ACCEPT ≠ 0)
    (hfd : it.acceptRet ≠ -1)
    (hfail : it.eventSelectRet ≠ 0 ∨ it.setNonblockingOk = false) :
    waitStep it = .ret (.err .osError) ∧
    ∀ (d : Nat) (rest : List OsIter), it.closedAtEntry = false →
      acceptLoop d (it :: rest) = (some (.err .osError), [msFor d it.now]) := by
  have hstep : waitStep it = enumStep it := by
    simp [waitStep, hwait, WSA_WAIT_TIMEOUT, WSA_WAIT_FAILED, WSA_WAIT_EVENT_0]
  have hws : waitStep it = .ret (.err .osError) := by
    rw [hstep]
    rcases hfail with hf | hf
    · simp [enumStep, henum, hbit, hfd, hf]
    · by_cases hes : it.eventSelectRet = 0
      · simp [enumStep, henum, hbit, hfd, hes, hf]
      · simp [enumStep, henum, hbit, hfd, hes]
  refine ⟨hws, ?_⟩
  intro d rest hcl
  simp [acceptLoop, hcl, hws]

/-- Witness for C9: a failing blocking-mode switch discards the accepted
descriptor and returns the OS error. -/
theorem C9_witness :
    acceptLoop 0 [⟨false, 3, 1, 0, 8, 9, false, 0, false⟩] =
      (some (.err .osError), [msFor 0 3]) :=
  (C9_normalization_failure_drops_connection ⟨false, 3, 1, 0, 8, 9, false, 0, false⟩
    rfl rfl (by decide) (by decide) (Or.inr rfl)).2 0 [] rfl

/-- Claim C3: every wait a call performs uses a duration computed from
the one original deadline - the wait trace of any run is the pointwise
image of a prefix of the iterations under `fun it => msFor d it.now`
with the same `d` throughout (so a spurious wakeup recomputes the
remaining time from the original deadline, never a fresh one), and
`msFor` is "infinite" at the sentinel 0 and `max 0 (deadline - now)` in
exact integer arithmetic otherwise. -/
theorem C3_wait_duration_original_deadline (d : Nat) (iters : List OsIter) :
    (∃ n, (acceptLoop d iters).2 = (iters.take n).map (fun it => msFor d it.now)) ∧
    (d = 0 → ∀ now, msFor d now = WSA_INFINITE) ∧
    (d ≠ 0 → ∀ now : Nat, (msFor d now : Int) = max 0 ((d : Int) - (now : Int))) := by
  refine ⟨?_, ?_, ?_⟩
  · induction iters with
    | nil => exact ⟨0, rfl⟩
    | cons it rest ih =>
      by_cases hc : it.closedAtEntry
      · exact ⟨0, by simp [acceptLoop, hc]⟩
      · cases hws : waitStep it with
        | ret r => exact ⟨1, by simp [acceptLoop, hc, hws]⟩
        | again =>
          obtain ⟨n, hn⟩ := ih
          exact ⟨n + 1, by simp [acceptLoop, hc, hws, hn]⟩
  · intro h now
    simp [msFor, h]
  · intro h now
    unfold msFor
    rw [if_neg h]
    split
    · rename_i hlt
      rw [max_eq_left (by omega : (d : Int) - (now : Int) ≤ 0)]
      rfl
    · rename_i hge
      rw [max_eq_right (by omega : (0 : Int) ≤ (d : Int) - (now : Int))]
      omega

/-- Witness for C3 at a two-iteration run with a finite deadline. -/
theorem C3_witness :
    (∃ n, (acceptLoop 10 [⟨false, 2, 1, 0, 0, 0, false, 0, true⟩,
                          ⟨false, 4, 258, 0, 0, 0, false, 0, true⟩]).2 =
      (([⟨false, 2, 1, 0, 0, 0, false, 0, true⟩,
         ⟨false, 4, 258, 0, 0, 0, false, 0, true⟩] : List OsIter).take n).map
        (fun it => msFor 10 it.now)) ∧
    ((msFor 10 4 : Int) = max 0 ((10 : Int) - (4 : Int))) :=
  ⟨(C3_wait_duration_original_deadline 10 _).1,
   (C3_wait_duration_original_deadline 10 []).2.2 (by decide) 4⟩

/-- Helper for C4: the only way an iteration returns a connection is the
final arm of the accepted-descriptor branch, whose guards record that the
event deregistration returned 0 and the blocking-mode switch succeeded. -/
theorem waitStep_conn_normalized (it : OsIter) (fd : Int)
    (h : waitStep it = .ret (.conn fd)) :
    it.acceptRet = fd ∧ it.eventSelectRet = 0 ∧ it.setNonblockingOk = true := by
  unfold waitStep enumStep at h
  repeat' split at h
  all_goals simp_all

/-- Claim C4: whenever `accept()` returns a connection, some iteration
produced that descriptor with the event deregistration succeeding
(`WSAEventSelect(fd, accept, 0)` returned 0) and the switch to blocking
mode succeeding: the connection is never handed back still in
event-driven/non-blocking configuration. -/
theorem C4_connection_normalized_before_return (d : Nat) (iters : List OsIter)
    (fd : Int) (tr : List Nat)
    (h : acceptLoop d iters = (some (.conn fd), tr)) :
    ∃ it ∈ iters, it.acceptRet = fd ∧ it.eventSelectRet = 0 ∧
      it.setNonblockingOk = true := by
  induction iters generalizing tr with
  | nil => simp [acceptLoop] at h
  | cons it rest ih =>
    unfold acceptLoop at h
    by_cases hc : it.closedAtEntry
    · rw [if_pos hc] at h
      simp at h
    · rw [if_neg hc] at h
      cases hws : waitStep it with
      | ret r =>
        rw [hws] at h
        simp at h
        obtain ⟨hr, -⟩ := h
        subst hr
        obtain ⟨h1, h2, h3⟩ := waitStep_conn_normalized it fd hws
        exact ⟨it, by simp, h1, h2, h3⟩
      | again =>
        rw [hws] at h
        simp at h
        obtain ⟨h1, -⟩ := h
        obtain ⟨x, hx, hprops⟩ := ih (acceptLoop d rest).2 (by
          cases hleft : acceptLoop d rest with
          | mk o t => simp_all)
        exact ⟨x, by simp [hx], hprops⟩

/-- Witness for C4 at a one-iteration run that accepts descriptor 9. -/
theorem C4_witness :
    ∃ it ∈ [(⟨false, 3, 1, 0, 8, 9, false, 0, true⟩ : OsIter)],
      it.acceptRet = 9 ∧ it.eventSelectRet = 0 ∧ it.setNonblockingOk = true :=
  C4_connection_normalized_before_return 0 _ 9 [msFor 0 3] (by decide)

/-- Helper for C10: a wait return among the four handled values never
produces the panic outcome in one iteration. -/
theorem waitStep_no_panic (it : OsIter)
    (h : it.waitRet = WSA_WAIT_TIMEOUT ∨ it.waitRet = WSA_WAIT_FAILED ∨
         it.waitRet = WSA_WAIT_EVENT_0 ∨ it.waitRet = WSA_WAIT_EVENT_0 + 1) :
    waitStep it ≠ .ret .panicked := by
  have henum : enumStep it ≠ .ret .panicked := by
    unfold enumStep
    repeat' split
    all_goals simp
  rcases h with h | h | h | h <;>
    simp [waitStep, h, WSA_WAIT_TIMEOUT, WSA_WAIT_FAILED, WSA_WAIT_EVENT_0, henum]

/-- Claim C10: the wait match handles exactly four outcomes - timeout,
wait failure, abort event (index 0), accept event (index 1) - and any
other value trips the `assert_eq!(n, WSA_WAIT_EVENT_0 + 1)`; under an OS
model returning only those four values, the assertion never fires and
`accept()` never panics. -/
theorem C10_assert_never_fires (d : Nat) (iters : List OsIter)
    (h : ∀ it ∈ iters,
       it.waitRet = WSA_WAIT_TIMEOUT ∨ it.waitRet = WSA_WAIT_FAILED ∨
       it.waitRet = WSA_WAIT_EVENT_0 ∨ it.waitRet = WSA_WAIT_EVENT_0 + 1) :
    (∀ it : OsIter, it.waitRet ≠ WSA_WAIT_TIMEOUT → it.waitRet ≠ WSA_WAIT_FAILED →
       it.waitRet ≠ WSA_WAIT_EVENT_0 → it.waitRet ≠ WSA_WAIT_EVENT_0 + 1 →
       waitStep it = .ret .panicked) ∧
    (acceptLoop d iters).1 ≠ some .panicked := by
  constructor
  · intro it h1 h2 h3 h4
    simp [waitStep, h1, h2, h3, h4]
  · induction iters with
    | nil => simp [acceptLoop]
    | cons it rest ih =>
      have hit := h it (by simp)
      have hrest := fun x hx => h x (List.mem_cons_of_mem it hx)
      unfold acceptLoop
      by_cases hc : it.closedAtEntry
      · simp [hc]
      · rw [if_neg hc]
        cases hws : waitStep it with
        | ret r =>
          have := waitStep_no_panic it hit
          rw [hws] at this
          simp
          intro hcontra
          exact this (by rw [hcontra])
        | again =>
          simpa using ih hrest

/-- Witness for C10: a run whose wait returns are among the four handled
values never yields the panic outcome. -/
theorem C10_witness :
    (acceptLoop 0 [⟨false, 2, 258, 0, 0, 0, false, 0, true⟩]).1 ≠
      some .panicked :=
  (C10_assert_never_fires 0 [⟨false, 2, 258, 0, 0, 0, false, 0, true⟩]
    (by intro it hit; simp at hit; subst hit; exact Or.inl rfl)).2
